import Mathlib

/-!
Verification development for the risk-gated execution pipeline of the
bitcoin-scalper repository. The TypeScript sources are shallowly embedded:
JavaScript numbers are modelled as rationals (`ℚ`), with a dedicated
two-constructor type `XQ` where the code can produce `Infinity`; string
formatting of numeric values inside human-readable `reason` texts is
abstracted (the presence or absence of a reason matches the source, the
rendered digits are not reproduced). Stateful classes are embedded as
explicit state records with pure transition functions.
-/

set_option maxHeartbeats 1000000

/-- A JavaScript number that may be `Infinity`: either a finite rational or
the positive infinity produced e.g. by `estimateFillPrice` and the spread
computation on an empty book. -/
inductive XQ where
  | fin (q : ℚ)
  | inf
deriving DecidableEq

/-- JavaScript `<=` restricted to the values `XQ` can take
(`Infinity <= Infinity` is `true`, `Infinity <= x` is `false` for finite
`x`, and `x <= Infinity` is `true`). -/
def XQ.le : XQ → XQ → Bool
  | .fin a, .fin b => a ≤ b
  | .fin _, .inf => true
  | .inf, .fin _ => false
  | .inf, .inf => true

/-- One price level of the L2 book (`OrderBookLevel` in `types/core.ts`). -/
structure OrderBookLevel where
  price : ℚ
  quantity : ℚ
deriving DecidableEq

/-- The local order-book replica (`OrderBook` in `types/core.ts`). -/
structure OrderBook where
  symbol : String
  timestamp : ℚ
  bids : List OrderBookLevel
  asks : List OrderBookLevel
  lastUpdateId : ℚ
deriving DecidableEq

/-- The immutable rulebook configuration (`RulebookConfig` in
`types/risk.ts`). -/
structure RulebookConfig where
  maxPositionSizeBTC : ℚ
  maxExposurePercent : ℚ
  maxDailyLossPercent : ℚ
  maxDrawdownPercent : ℚ
  maxConsecutiveLosses : ℚ
  maxSpreadBps : ℚ
  maxSlippageBps : ℚ
  minLiquidityBTC : ℚ
  minHoldTimeMs : ℚ
  maxHoldTimeMs : ℚ
  maxOrdersPerMinute : ℚ
  maxOrdersPerHour : ℚ
  killSwitchEnabled : Bool
  maxLeverage : ℚ
deriving DecidableEq

/-- The hard-coded default limits (`DEFAULT_RULEBOOK` in `types/risk.ts`). -/
def DEFAULT_RULEBOOK : RulebookConfig :=
  { maxPositionSizeBTC := 1/2
    maxExposurePercent := 5
    maxDailyLossPercent := 2
    maxDrawdownPercent := 5
    maxConsecutiveLosses := 5
    maxSpreadBps := 10
    maxSlippageBps := 5
    minLiquidityBTC := 10
    minHoldTimeMs := 5000
    maxHoldTimeMs := 300000
    maxOrdersPerMinute := 10
    maxOrdersPerHour := 100
    killSwitchEnabled := false
    maxLeverage := 3 }

/-- A single risk-check outcome (`RiskCheckResult` in `types/risk.ts`).
The optional `reason` is present exactly when the source populates it;
its numeric formatting is abstracted to a fixed descriptive text. -/
structure RiskCheckResult where
  passed : Bool
  checkName : String
  reason : Option String := none
  value : Option XQ := none
  limit : Option XQ := none
  timestamp : ℚ
deriving DecidableEq

/-- The veto verdict (`RiskVeto` in `types/risk.ts`). -/
structure RiskVeto where
  vetoed : Bool
  decisionId : String
  checks : List RiskCheckResult
  failedChecks : List String
  timestamp : ℚ
deriving DecidableEq

/-- Accumulated risk metrics (`RiskMetrics` in `types/risk.ts`). -/
structure RiskMetrics where
  dailyPnl : ℚ
  dailyPnlPercent : ℚ
  dailyTrades : ℚ
  dailyWins : ℚ
  dailyLosses : ℚ
  currentDrawdown : ℚ
  maxDrawdown : ℚ
  drawdownStartedAt : Option ℚ := none
  consecutiveLosses : ℚ
  consecutiveWins : ℚ
  ordersLastMinute : ℚ
  ordersLastHour : ℚ
  currentExposurePercent : ℚ
  lastTradeAt : Option ℚ := none
  updatedAt : ℚ
deriving DecidableEq

/-- Factory for the all-zero initial metrics (`createInitialRiskMetrics`). -/
def createInitialRiskMetrics (now : ℚ) : RiskMetrics :=
  { dailyPnl := 0
    dailyPnlPercent := 0
    dailyTrades := 0
    dailyWins := 0
    dailyLosses := 0
    currentDrawdown := 0
    maxDrawdown := 0
    consecutiveLosses := 0
    consecutiveWins := 0
    ordersLastMinute := 0
    ordersLastHour := 0
    currentExposurePercent := 0
    updatedAt := now }

/-- Kill-switch state record (`KillSwitchState` in `types/risk.ts`). -/
structure KillSwitchState where
  active : Bool
  activatedAt : Option ℚ := none
  activatedBy : Option String := none
  reason : Option String := none
  canReactivateAt : Option ℚ := none
deriving DecidableEq

/-- Factory for the initial (inactive) kill-switch state. -/
def createKillSwitchState : KillSwitchState := { active := false }

/-- JavaScript truthiness of an optional number: `undefined` and `0` are
falsy, every other number is truthy. -/
def optTruthy : Option ℚ → Bool
  | none => false
  | some q => q != 0

/-- Embedding of `KillSwitch.deactivate` (`risk/kill-switch.ts`): returns
the boolean result together with the successor state. The source method
only ever returns a boolean (it never throws), so the embedding is a total
function. -/
def KillSwitch.deactivate (s : KillSwitchState) (confirmation : String)
    (now : ℚ) : Bool × KillSwitchState :=
  if !s.active then (false, s)
  else if confirmation != "CONFIRM_RESUME_TRADING" then (false, s)
  else if (match s.canReactivateAt with
           | some t => t != 0 && now < t
           | none => false) then (false, s)
  else (true, { active := false })

/-- Embedding of `KillSwitch.activate` (`risk/kill-switch.ts`): a second
activation while active is ignored. -/
def KillSwitch.activate (s : KillSwitchState) (trigger reason : String)
    (now cooldownMs : ℚ) : KillSwitchState :=
  if s.active then s
  else
    { active := true
      activatedAt := some now
      activatedBy := some trigger
      reason := some reason
      canReactivateAt := some (now + cooldownMs) }

/-- Private state of `RiskMetricsTracker` (`risk/metrics-tracker.ts`). -/
structure TrackerState where
  metrics : RiskMetrics
  peakEquity : ℚ
  startOfDayEquity : ℚ
  orderTimestamps : List ℚ
deriving DecidableEq

/-- The tracker state right after construction: initial metrics, zero peak
and start-of-day equity, empty order-timestamp window. -/
def RiskMetricsTracker.initialState (now : ℚ) : TrackerState :=
  { metrics := createInitialRiskMetrics now
    peakEquity := 0
    startOfDayEquity := 0
    orderTimestamps := [] }

/-- Embedding of `RiskMetricsTracker.recordTradeClose`
(`risk/metrics-tracker.ts`): updates daily P&L, win/loss counters, the two
streak counters, the peak equity and the drawdown figures. -/
def RiskMetricsTracker.recordTradeClose (s : TrackerState)
    (pnl currentEquity now : ℚ) : TrackerState :=
  let m0 := s.metrics
  let dailyPnl := m0.dailyPnl + pnl
  let dailyTrades := m0.dailyTrades + 1
  let dailyPnlPercent :=
    if 0 < s.startOfDayEquity then dailyPnl / s.startOfDayEquity * 100
    else m0.dailyPnlPercent
  let dailyWins := if 0 < pnl then m0.dailyWins + 1 else m0.dailyWins
  let consecutiveWins :=
    if 0 < pnl then m0.consecutiveWins + 1
    else if pnl < 0 then 0 else m0.consecutiveWins
  let dailyLosses := if pnl < 0 then m0.dailyLosses + 1 else m0.dailyLosses
  let consecutiveLosses :=
    if 0 < pnl then 0
    else if pnl < 0 then m0.consecutiveLosses + 1 else m0.consecutiveLosses
  let peakEquity :=
    if s.peakEquity < currentEquity then currentEquity else s.peakEquity
  let currentDrawdown :=
    if 0 < peakEquity then (peakEquity - currentEquity) / peakEquity * 100
    else m0.currentDrawdown
  let maxDrawdown :=
    if 0 < peakEquity ∧ m0.maxDrawdown < currentDrawdown then currentDrawdown
    else m0.maxDrawdown
  let drawdownStartedAt :=
    if 0 < peakEquity ∧ m0.maxDrawdown < currentDrawdown then some now
    else m0.drawdownStartedAt
  { s with
    peakEquity := peakEquity
    metrics :=
      { m0 with
        dailyPnl := dailyPnl
        dailyTrades := dailyTrades
        dailyPnlPercent := dailyPnlPercent
        dailyWins := dailyWins
        dailyLosses := dailyLosses
        consecutiveWins := consecutiveWins
        consecutiveLosses := consecutiveLosses
        currentDrawdown := currentDrawdown
        maxDrawdown := maxDrawdown
        drawdownStartedAt := drawdownStartedAt
        lastTradeAt := some now
        updatedAt := now } }

/-- The AI decision response consumed by the gate (`AIDecisionResponse` in
`types/decision.ts`); the enumerated fields are kept as the string literals
the TypeScript union types use. -/
structure AIDecisionResponse where
  requestId : String
  action : String
  size : ℚ
  orderType : String
  limitPrice : Option ℚ := none
  holdTimeMs : ℚ
  confidence : ℚ
  rationale : String
  timestamp : ℚ
deriving DecidableEq

/-- Embedding of `RulebookEngine.checkPositionSize` (`risk/rulebook.ts`). -/
def RulebookEngine.checkPositionSize (rb : RulebookConfig) (sizeBTC : ℚ)
    (now : ℚ) : RiskCheckResult :=
  let passed := sizeBTC ≤ rb.maxPositionSizeBTC
  { passed := passed
    checkName := "POSITION_SIZE"
    reason := if passed then none else some "Position size exceeds max"
    value := some (.fin sizeBTC)
    limit := some (.fin rb.maxPositionSizeBTC)
    timestamp := now }

/-- Embedding of `RulebookEngine.checkExposure` (`risk/rulebook.ts`). -/
def RulebookEngine.checkExposure (rb : RulebookConfig) (exposurePercent : ℚ)
    (now : ℚ) : RiskCheckResult :=
  let passed := exposurePercent ≤ rb.maxExposurePercent
  { passed := passed
    checkName := "EXPOSURE"
    reason := if passed then none else some "Exposure exceeds max"
    value := some (.fin exposurePercent)
    limit := some (.fin rb.maxExposurePercent)
    timestamp := now }

/-- Embedding of `RulebookEngine.checkDailyLoss` (`risk/rulebook.ts`). -/
def RulebookEngine.checkDailyLoss (rb : RulebookConfig) (dailyLossPercent : ℚ)
    (now : ℚ) : RiskCheckResult :=
  let passed := dailyLossPercent ≤ rb.maxDailyLossPercent
  { passed := passed
    checkName := "DAILY_LOSS"
    reason := if passed then none else some "Daily loss exceeds max"
    value := some (.fin dailyLossPercent)
    limit := some (.fin rb.maxDailyLossPercent)
    timestamp := now }

/-- Embedding of `RulebookEngine.checkDrawdown` (`risk/rulebook.ts`). -/
def RulebookEngine.checkDrawdown (rb : RulebookConfig) (drawdownPercent : ℚ)
    (now : ℚ) : RiskCheckResult :=
  let passed := drawdownPercent ≤ rb.maxDrawdownPercent
  { passed := passed
    checkName := "DRAWDOWN"
    reason := if passed then none else some "Drawdown exceeds max"
    value := some (.fin drawdownPercent)
    limit := some (.fin rb.maxDrawdownPercent)
    timestamp := now }

/-- Embedding of `RulebookEngine.checkSpread` (`risk/rulebook.ts`); the
spread may be `Infinity` when the book is one-sided, so the argument is
`XQ` and the comparison is the JavaScript `<=`. -/
def RulebookEngine.checkSpread (rb : RulebookConfig) (spreadBps : XQ)
    (now : ℚ) : RiskCheckResult :=
  let passed := XQ.le spreadBps (.fin rb.maxSpreadBps)
  { passed := passed
    checkName := "SPREAD"
    reason := if passed then none else some "Spread exceeds max"
    value := some spreadBps
    limit := some (.fin rb.maxSpreadBps)
    timestamp := now }

/-- Embedding of `RulebookEngine.checkSlippage` (`risk/rulebook.ts`); the
estimate may be `Infinity` on an empty side, so the argument is `XQ`. -/
def RulebookEngine.checkSlippage (rb : RulebookConfig)
    (expectedSlippageBps : XQ) (now : ℚ) : RiskCheckResult :=
  let passed := XQ.le expectedSlippageBps (.fin rb.maxSlippageBps)
  { passed := passed
    checkName := "SLIPPAGE"
    reason := if passed then none else some "Expected slippage exceeds max"
    value := some expectedSlippageBps
    limit := some (.fin rb.maxSlippageBps)
    timestamp := now }

/-- Embedding of `RulebookEngine.checkLiquidity` (`risk/rulebook.ts`). -/
def RulebookEngine.checkLiquidity (rb : RulebookConfig) (liquidityBTC : ℚ)
    (now : ℚ) : RiskCheckResult :=
  let passed := rb.minLiquidityBTC ≤ liquidityBTC
  { passed := passed
    checkName := "LIQUIDITY"
    reason := if passed then none else some "Liquidity below minimum"
    value := some (.fin liquidityBTC)
    limit := some (.fin rb.minLiquidityBTC)
    timestamp := now }

/-- Embedding of `RulebookEngine.checkHoldTime` (`risk/rulebook.ts`). -/
def RulebookEngine.checkHoldTime (rb : RulebookConfig) (holdTimeMs : ℚ)
    (now : ℚ) : RiskCheckResult :=
  let withinMin := rb.minHoldTimeMs ≤ holdTimeMs
  let withinMax := holdTimeMs ≤ rb.maxHoldTimeMs
  let passed := withinMin && withinMax
  { passed := passed
    checkName := "HOLD_TIME"
    reason :=
      if !withinMin then some "Hold time below minimum"
      else if !withinMax then some "Hold time exceeds maximum"
      else none
    value := some (.fin holdTimeMs)
    limit := some (.fin rb.maxHoldTimeMs)
    timestamp := now }

/-- Embedding of `RulebookEngine.checkOrderRate` (`risk/rulebook.ts`). -/
def RulebookEngine.checkOrderRate (rb : RulebookConfig)
    (ordersLastMinute ordersLastHour : ℚ) (now : ℚ) : RiskCheckResult :=
  let withinMinute := ordersLastMinute < rb.maxOrdersPerMinute
  let withinHour := ordersLastHour < rb.maxOrdersPerHour
  let passed := withinMinute && withinHour
  { passed := passed
    checkName := "ORDER_RATE"
    reason :=
      if !withinMinute then some "Orders last minute at limit"
      else if !withinHour then some "Orders last hour at limit"
      else none
    value := some (.fin ordersLastMinute)
    limit := some (.fin rb.maxOrdersPerMinute)
    timestamp := now }

/-- Embedding of `RulebookEngine.checkConsecutiveLosses`
(`risk/rulebook.ts`). -/
def RulebookEngine.checkConsecutiveLosses (rb : RulebookConfig)
    (consecutiveLosses : ℚ) (now : ℚ) : RiskCheckResult :=
  let passed := consecutiveLosses < rb.maxConsecutiveLosses
  { passed := passed
    checkName := "CONSECUTIVE_LOSSES"
    reason := if passed then none else some "Consecutive losses at limit"
    value := some (.fin consecutiveLosses)
    limit := some (.fin rb.maxConsecutiveLosses)
    timestamp := now }

/-- Embedding of `RulebookEngine.checkLeverage` (`risk/rulebook.ts`). -/
def RulebookEngine.checkLeverage (rb : RulebookConfig) (leverage : ℚ)
    (now : ℚ) : RiskCheckResult :=
  let passed := leverage ≤ rb.maxLeverage
  { passed := passed
    checkName := "LEVERAGE"
    reason := if passed then none else some "Leverage exceeds max"
    value := some (.fin leverage)
    limit := some (.fin rb.maxLeverage)
    timestamp := now }

/-- Embedding of `RulebookEngine.checkKillSwitch` (`risk/rulebook.ts`):
it reads only the frozen `killSwitchEnabled` configuration flag, not the
live `KillSwitch` state (which is not even an argument). -/
def RulebookEngine.checkKillSwitch (rb : RulebookConfig) (now : ℚ) :
    RiskCheckResult :=
  let passed := !rb.killSwitchEnabled
  { passed := passed
    checkName := "KILL_SWITCH"
    reason :=
      if passed then none else some "Kill switch is active - all trading halted"
    timestamp := now }

/-- The context record handed to `RulebookEngine.validateDecision`; the
spread and slippage entries can be `Infinity`, the rest are finite. -/
structure ValidationContext where
  currentExposurePercent : ℚ
  dailyLossPercent : ℚ
  drawdownPercent : ℚ
  spreadBps : XQ
  expectedSlippageBps : XQ
  liquidityBTC : ℚ
  ordersLastMinute : ℚ
  ordersLastHour : ℚ
  consecutiveLosses : ℚ
  currentLeverage : ℚ
deriving DecidableEq

/-- Embedding of `RulebookEngine.validateDecision` (`risk/rulebook.ts`):
runs the full battery of twelve checks in the fixed source order, without
short-circuiting. -/
def RulebookEngine.validateDecision (rb : RulebookConfig)
    (decision : AIDecisionResponse) (ctx : ValidationContext) (now : ℚ) :
    List RiskCheckResult :=
  [ RulebookEngine.checkPositionSize rb decision.size now
  , RulebookEngine.checkExposure rb ctx.currentExposurePercent now
  , RulebookEngine.checkDailyLoss rb ctx.dailyLossPercent now
  , RulebookEngine.checkDrawdown rb ctx.drawdownPercent now
  , RulebookEngine.checkSpread rb ctx.spreadBps now
  , RulebookEngine.checkSlippage rb ctx.expectedSlippageBps now
  , RulebookEngine.checkLiquidity rb ctx.liquidityBTC now
  , RulebookEngine.checkHoldTime rb decision.holdTimeMs now
  , RulebookEngine.checkOrderRate rb ctx.ordersLastMinute ctx.ordersLastHour now
  , RulebookEngine.checkConsecutiveLosses rb ctx.consecutiveLosses now
  , RulebookEngine.checkLeverage rb ctx.currentLeverage now
  , RulebookEngine.checkKillSwitch rb now ]

/-- One forbidden condition (`ForbiddenCondition` in `types/risk.ts`). -/
structure ForbiddenCondition where
  name : String
  active : Bool
  reason : String
  detectedAt : ℚ
deriving DecidableEq

/-- Result of the forbidden-conditions check (`ForbiddenConditionsCheck`
in `types/risk.ts`). -/
structure ForbiddenConditionsCheck where
  canTrade : Bool
  conditions : List ForbiddenCondition
  activeConditions : List String
  timestamp : ℚ
deriving DecidableEq

/-- Embedding of `ForbiddenConditionsChecker.checkSpread`
(`risk/forbidden-conditions.ts`): a missing or zero best bid/ask is the
falsy case of the source guard. -/
def ForbiddenConditionsChecker.checkSpread (book : OrderBook)
    (maxSpreadBps : ℚ) (now : ℚ) : Option ForbiddenCondition :=
  match book.bids.head?, book.asks.head? with
  | some bb, some ba =>
    if bb.price = 0 ∨ ba.price = 0 then
      some { name := "MISSING_SPREAD", active := true
             reason := "Cannot calculate spread - missing bid or ask"
             detectedAt := now }
    else
      let midPrice := (bb.price + ba.price) / 2
      let spreadBps := (ba.price - bb.price) / midPrice * 10000
      if maxSpreadBps < spreadBps then
        some { name := "SPREAD_TOO_WIDE", active := true
               reason := "Spread exceeds max", detectedAt := now }
      else none
  | _, _ =>
    some { name := "MISSING_SPREAD", active := true
           reason := "Cannot calculate spread - missing bid or ask"
           detectedAt := now }

/-- Sum of the quantities of the first `n` levels, as in
`slice(0, n).reduce((sum, l) => sum + l.quantity, 0)`. -/
def topLevelsQuantity (levels : List OrderBookLevel) (n : ℕ) : ℚ :=
  ((levels.take n).map (fun l => l.quantity)).sum

/-- Embedding of `ForbiddenConditionsChecker.checkLiquidity`
(`risk/forbidden-conditions.ts`). -/
def ForbiddenConditionsChecker.checkLiquidity (book : OrderBook)
    (minLiquidityBTC : ℚ) (now : ℚ) : Option ForbiddenCondition :=
  let bidLiquidity := topLevelsQuantity book.bids 5
  let askLiquidity := topLevelsQuantity book.asks 5
  let minLiquidity := min bidLiquidity askLiquidity
  if minLiquidity < minLiquidityBTC then
    some { name := "LIQUIDITY_TOO_LOW", active := true
           reason := "Liquidity below minimum", detectedAt := now }
  else none

/-- Embedding of `ForbiddenConditionsChecker.checkStaleQuotes`
(`risk/forbidden-conditions.ts`). -/
def ForbiddenConditionsChecker.checkStaleQuotes (book : OrderBook)
    (now : ℚ) : Option ForbiddenCondition :=
  if 5000 < now - book.timestamp then
    some { name := "STALE_QUOTES", active := true
           reason := "Order book is too old", detectedAt := now }
  else none

/-- Embedding of `ForbiddenConditionsChecker.checkPriceDeviation`
(`risk/forbidden-conditions.ts`). -/
def ForbiddenConditionsChecker.checkPriceDeviation (book : OrderBook)
    (currentPrice : ℚ) (now : ℚ) : Option ForbiddenCondition :=
  match book.bids.head?, book.asks.head? with
  | some bb, some ba =>
    if bb.price = 0 ∨ ba.price = 0 then none
    else
      let midPrice := (bb.price + ba.price) / 2
      let deviation := |midPrice - currentPrice| / currentPrice
      if 1/200 < deviation then
        some { name := "PRICE_DEVIATION", active := true
               reason := "Order book mid deviates from reference"
               detectedAt := now }
      else none
  | _, _ => none

/-- Embedding of `ForbiddenConditionsChecker.checkEmptyOrderBook`
(`risk/forbidden-conditions.ts`). -/
def ForbiddenConditionsChecker.checkEmptyOrderBook (book : OrderBook)
    (now : ℚ) : Option ForbiddenCondition :=
  if book.bids.length = 0 ∨ book.asks.length = 0 then
    some { name := "EMPTY_ORDER_BOOK", active := true
           reason := "Order book has no bids or asks", detectedAt := now }
  else if book.bids.length < 3 ∨ book.asks.length < 3 then
    some { name := "THIN_ORDER_BOOK", active := true
           reason := "Order book is thin", detectedAt := now }
  else none

/-- Embedding of `ForbiddenConditionsChecker.check`
(`risk/forbidden-conditions.ts`): evaluates the five predicates and reports
`canTrade` true exactly when no condition is active. -/
def ForbiddenConditionsChecker.check (rb : RulebookConfig) (book : OrderBook)
    (currentPrice : ℚ) (now : ℚ) : ForbiddenConditionsCheck :=
  let conditions :=
    (ForbiddenConditionsChecker.checkSpread book rb.maxSpreadBps now).toList ++
    (ForbiddenConditionsChecker.checkLiquidity book rb.minLiquidityBTC now).toList ++
    (ForbiddenConditionsChecker.checkStaleQuotes book now).toList ++
    (ForbiddenConditionsChecker.checkPriceDeviation book currentPrice now).toList ++
    (ForbiddenConditionsChecker.checkEmptyOrderBook book now).toList
  let activeConditions := (conditions.filter (fun c => c.active)).map (fun c => c.name)
  { canTrade := activeConditions.length = 0
    conditions := conditions
    activeConditions := activeConditions
    timestamp := now }

/-- The side of the book `VetoGate.estimateSlippage` walks for a given
action: asks for `BUY`/`CLOSE_SHORT`, bids otherwise. -/
def VetoGate.slipLevels (book : OrderBook) (action : String) :
    List OrderBookLevel :=
  if action == "BUY" || action == "CLOSE_SHORT" then book.asks else book.bids

/-- The level-walking loop shared by the slippage estimator: consumes
levels, accumulating cost, until the remaining size is satisfied or the
levels are exhausted; returns the final `(remainingSize, totalCost)`. -/
def VetoGate.fillWalk : List OrderBookLevel → ℚ → ℚ → ℚ × ℚ
  | [], remaining, totalCost => (remaining, totalCost)
  | l :: ls, remaining, totalCost =>
    let fillQty := min remaining l.quantity
    let totalCost := totalCost + fillQty * l.price
    let remaining := remaining - fillQty
    if remaining ≤ 0 then (remaining, totalCost)
    else VetoGate.fillWalk ls remaining totalCost

/-- Embedding of `VetoGate.estimateSlippage` (`risk/veto-gate.ts`):
`0` for non-positive sizes, `Infinity` when the relevant side is empty,
the fixed `1000` bps penalty when the walk exhausts the book with size
left over, and otherwise the average-fill-versus-best-price slippage. -/
def VetoGate.estimateSlippage (sizeBTC : ℚ) (book : OrderBook)
    (action : String) : XQ :=
  if sizeBTC ≤ 0 then .fin 0
  else
    match VetoGate.slipLevels book action with
    | [] => .inf
    | l0 :: _ =>
      let walk := VetoGate.fillWalk (VetoGate.slipLevels book action) sizeBTC 0
      if 0 < walk.1 then .fin 1000
      else
        let avgFillPrice := walk.2 / sizeBTC
        .fin (|(avgFillPrice - l0.price) / l0.price| * 10000)

/-- Embedding of `VetoGate.runSanityChecks` (`risk/veto-gate.ts`): the
limit-price check runs only for `LIMIT` orders with a truthy limit price,
the positive-size check only for entry actions, and the confidence check
always. -/
def VetoGate.runSanityChecks (decision : AIDecisionResponse)
    (currentPrice : ℚ) (now : ℚ) : List RiskCheckResult :=
  let limitChecks : List RiskCheckResult :=
    if decision.orderType == "LIMIT" && optTruthy decision.limitPrice then
      let lp := decision.limitPrice.getD 0
      let deviation := |lp - currentPrice| / currentPrice
      let passed := deviation ≤ 1/100
      [ { passed := passed
          checkName := "LIMIT_PRICE_SANITY"
          reason :=
            if passed then none
            else some "Limit price deviates from current price"
          value := some (.fin lp)
          limit := some (.fin (currentPrice * (101/100)))
          timestamp := now } ]
    else []
  let sizeChecks : List RiskCheckResult :=
    if decision.action == "BUY" || decision.action == "SELL" then
      let passed := 0 < decision.size
      [ { passed := passed
          checkName := "SIZE_POSITIVE"
          reason :=
            if passed then none
            else some "Entry action requires positive size"
          value := some (.fin decision.size)
          timestamp := now } ]
    else []
  let confidenceOk := 3/10 ≤ decision.confidence
  let confidenceChecks : List RiskCheckResult :=
    [ { passed := confidenceOk
        checkName := "CONFIDENCE_THRESHOLD"
        reason :=
          if confidenceOk then none
          else some "AI confidence below minimum"
        value := some (.fin decision.confidence)
        limit := some (.fin (3/10))
        timestamp := now } ]
  limitChecks ++ sizeChecks ++ confidenceChecks

/-- Embedding of `VetoGate.evaluate` (`risk/veto-gate.ts`): the kill-switch
gate, the forbidden-conditions gate, the spread/liquidity/slippage
derivations, the full rulebook battery and the sanity checks, with the
verdict derived from the collected failed-check names. -/
def VetoGate.evaluate (decision : AIDecisionResponse) (book : OrderBook)
    (currentPrice : ℚ) (killSwitchActive : Bool) (metrics : RiskMetrics)
    (rb : RulebookConfig) (now : ℚ) : RiskVeto :=
  let ksChecks : List RiskCheckResult :=
    if killSwitchActive then
      [ { passed := false
          checkName := "KILL_SWITCH"
          reason := some "Kill switch is active - all trading halted"
          timestamp := now } ]
    else []
  let ksFailed : List String :=
    if killSwitchActive then ["KILL_SWITCH"] else []
  let forbiddenCheck := ForbiddenConditionsChecker.check rb book currentPrice now
  let fcChecks : List RiskCheckResult :=
    if forbiddenCheck.canTrade then []
    else
      [ { passed := false
          checkName := "FORBIDDEN_CONDITIONS"
          reason := some "Forbidden conditions active"
          timestamp := now } ]
  let fcFailed : List String :=
    if forbiddenCheck.canTrade then [] else ["FORBIDDEN_CONDITIONS"]
  let bestBid := ((book.bids.head?).map (fun l => l.price)).getD 0
  let bestAsk := ((book.asks.head?).map (fun l => l.price)).getD 0
  let midPrice := (bestBid + bestAsk) / 2
  let spreadBps : XQ :=
    if 0 < midPrice then .fin ((bestAsk - bestBid) / midPrice * 10000)
    else .inf
  let bidLiquidity := topLevelsQuantity book.bids 5
  let askLiquidity := topLevelsQuantity book.asks 5
  let liquidityBTC := min bidLiquidity askLiquidity
  let estimatedSlippageBps := VetoGate.estimateSlippage decision.size book decision.action
  let rulebookChecks :=
    RulebookEngine.validateDecision rb decision
      { currentExposurePercent := metrics.currentExposurePercent
        dailyLossPercent := |metrics.dailyPnlPercent|
        drawdownPercent := metrics.currentDrawdown
        spreadBps := spreadBps
        expectedSlippageBps := estimatedSlippageBps
        liquidityBTC := liquidityBTC
        ordersLastMinute := metrics.ordersLastMinute
        ordersLastHour := metrics.ordersLastHour
        consecutiveLosses := metrics.consecutiveLosses
        currentLeverage := 1 } now
  let rbFailed := (rulebookChecks.filter (fun c => !c.passed)).map (fun c => c.checkName)
  let sanityChecks := VetoGate.runSanityChecks decision currentPrice now
  let sanityFailed := (sanityChecks.filter (fun c => !c.passed)).map (fun c => c.checkName)
  let allChecks := ksChecks ++ fcChecks ++ rulebookChecks ++ sanityChecks
  let failedChecks := ksFailed ++ fcFailed ++ rbFailed ++ sanityFailed
  let vetoed := decide (0 < failedChecks.length)
  { vetoed := vetoed
    decisionId := decision.requestId
    checks := allChecks
    failedChecks := failedChecks
    timestamp := now }

/-- Private state of `OrderBookManager` (`data/orderbook.ts`). -/
structure OBState where
  book : OrderBook
  lastUpdateId : ℚ
  isInitialized : Bool
  updateCount : ℕ
deriving DecidableEq

/-- A Binance depth-update message as destructured by
`OrderBookManager.handleDepthUpdate`: first/last sequence numbers, bid and
ask deltas (price, quantity pairs) and the optional event time. -/
structure DepthUpdateMsg where
  seqU : ℚ
  sequ : ℚ
  b : List (ℚ × ℚ)
  a : List (ℚ × ℚ)
  E : Option ℚ := none
deriving DecidableEq

/-- A Binance book-ticker message. The wire format is keyed by an order-book
update id `sequ` like the depth stream, but `OrderBookManager.handleBookTicker`
destructures only `{ b, B, a, A, E }` and never reads the sequence field. -/
structure BookTickerMsg where
  sequ : ℚ
  b : Option ℚ := none
  B : Option ℚ := none
  a : Option ℚ := none
  A : Option ℚ := none
  E : Option ℚ := none
deriving DecidableEq

/-- The insertion pass of `OrderBookManager.updateLevel`
(`data/orderbook.ts`): find the first level at or past the new price
(`price <=` for the descending bid side, `price >=` for the ascending ask
side), overwrite it when the price matches exactly, insert before it
otherwise, and append at the end when no such level exists. -/
def OrderBookManager.insertLevel (isDescending : Bool) (price quantity : ℚ) :
    List OrderBookLevel → List OrderBookLevel
  | [] => [{ price := price, quantity := quantity }]
  | l :: ls =>
    if (if isDescending then l.price ≤ price else price ≤ l.price) then
      if l.price = price then { price := price, quantity := quantity } :: ls
      else { price := price, quantity := quantity } :: l :: ls
    else l :: OrderBookManager.insertLevel isDescending price quantity ls

/-- Embedding of `OrderBookManager.updateLevel` (`data/orderbook.ts`):
quantity `0` removes the level at that price (first match, if present);
otherwise the level is updated or inserted in price order and the side is
truncated to its top 20 levels. -/
def OrderBookManager.updateLevel (isDescending : Bool)
    (levels : List OrderBookLevel) (price quantity : ℚ) :
    List OrderBookLevel :=
  if quantity = 0 then levels.eraseP (fun l => l.price == price)
  else (OrderBookManager.insertLevel isDescending price quantity levels).take 20

/-- Applies a list of `[price, qty]` deltas to one side, as the per-side
loops of `handleDepthUpdate` do. -/
def OrderBookManager.applyDeltas (isDescending : Bool)
    (levels : List OrderBookLevel) (deltas : List (ℚ × ℚ)) :
    List OrderBookLevel :=
  deltas.foldl
    (fun acc pq => OrderBookManager.updateLevel isDescending acc pq.1 pq.2)
    levels

/-- Embedding of `OrderBookManager.handleDepthUpdate`
(`data/orderbook.ts`): an update whose final sequence number `sequ` is at
most the last applied one is discarded before any state is touched;
otherwise both sides are merged, the sequence number and the timestamp
advance, and the book becomes initialized once both sides are non-empty. -/
def OrderBookManager.handleDepthUpdate (s : OBState) (m : DepthUpdateMsg)
    (now : ℚ) : OBState :=
  if m.sequ ≤ s.lastUpdateId then s
  else
    let bids := OrderBookManager.applyDeltas true s.book.bids m.b
    let asks := OrderBookManager.applyDeltas false s.book.asks m.a
    let timestamp :=
      match m.E with
      | some e => if e ≠ 0 then e else now
      | none => now
    let isInitialized :=
      if !s.isInitialized ∧ bids.length > 0 ∧ asks.length > 0 then true
      else s.isInitialized
    { book :=
        { s.book with
          bids := bids, asks := asks, lastUpdateId := m.sequ
          timestamp := timestamp }
      lastUpdateId := m.sequ
      isInitialized := isInitialized
      updateCount := s.updateCount + 1 }

/-- Embedding of `OrderBookManager.handleBookTicker`
(`data/orderbook.ts`): merges a truthy best bid and/or best ask into the
book and refreshes the timestamp; no sequence-number guard is applied. -/
def OrderBookManager.handleBookTicker (s : OBState) (m : BookTickerMsg)
    (now : ℚ) : OBState :=
  let bids :=
    if optTruthy m.b && optTruthy m.B then
      OrderBookManager.updateLevel true s.book.bids (m.b.getD 0) (m.B.getD 0)
    else s.book.bids
  let asks :=
    if optTruthy m.a && optTruthy m.A then
      OrderBookManager.updateLevel false s.book.asks (m.a.getD 0) (m.A.getD 0)
    else s.book.asks
  let timestamp :=
    match m.E with
    | some e => if e ≠ 0 then e else now
    | none => now
  { s with
    book := { s.book with bids := bids, asks := asks, timestamp := timestamp } }

/-- Folds a stream of depth updates (each with its arrival wall-clock time)
through `handleDepthUpdate`. -/
def OrderBookManager.applyUpdates (s : OBState)
    (msgs : List (DepthUpdateMsg × ℚ)) : OBState :=
  msgs.foldl (fun st mn => OrderBookManager.handleDepthUpdate st mn.1 mn.2) s

/-- Strict price ordering between adjacent levels of one side: descending
for bids, ascending for asks. Strictness simultaneously captures the
sortedness and the no-duplicate-price invariants. -/
def levelOrd (isDescending : Bool) (x y : OrderBookLevel) : Prop :=
  if isDescending then y.price < x.price else x.price < y.price

/-- One side of the book is well-formed: strictly price-ordered (hence
price-unique) and holding at most 20 levels. -/
def SideInv (isDescending : Bool) (levels : List OrderBookLevel) : Prop :=
  List.Pairwise (levelOrd isDescending) levels ∧ levels.length ≤ 20

/-- The order-book replica invariant: bids strictly descending, asks
strictly ascending, both sides bounded by 20 levels. -/
def BookInv (s : OBState) : Prop :=
  SideInv true s.book.bids ∧ SideInv false s.book.asks

/-- Configuration of the decision API (`AIDecisionAPIConfig` in
`ai/decision-api.ts`); the string fields hold the code fallbacks used when
the corresponding environment variables are unset. -/
structure AIDecisionAPIConfig where
  endpoint : String
  apiKey : String
  model : String
  timeoutMs : ℚ
  maxRetries : ℕ
deriving DecidableEq

/-- Embedding of `DEFAULT_CONFIG` in `ai/decision-api.ts`. -/
def DecisionAPI.DEFAULT_CONFIG : AIDecisionAPIConfig :=
  { endpoint := "http://localhost:8080/v1/chat/completions"
    apiKey := ""
    model := "gpt-oss-120b"
    timeoutMs := 5000
    maxRetries := 2 }

/-- Embedding of `DecisionAPI.createSafeHoldDecision`
(`ai/decision-api.ts`): the fallback substituted for a failed, timed-out or
malformed decision-service response. -/
def DecisionAPI.createSafeHoldDecision (rb : RulebookConfig)
    (requestId : String) (now : ℚ) : AIDecisionResponse :=
  { requestId := requestId
    action := "HOLD"
    size := 0
    orderType := "LIMIT"
    holdTimeMs := rb.minHoldTimeMs
    confidence := 0
    rationale := "Error occurred - defaulting to safe HOLD"
    timestamp := now }

/-- Embedding of the outcome handling of `DecisionAPI.requestDecision`
(`ai/decision-api.ts`, the try/catch around `callAI`): the transport call
is abstracted as an `Except` — any error (timeout after `timeoutMs`,
transport failure, schema-invalid payload) yields the safe-HOLD fallback,
while a successful response has its hold time and size clamped to the
rulebook bounds. -/
def DecisionAPI.requestDecisionResult (rb : RulebookConfig)
    (requestId : String) (aiResult : Except String AIDecisionResponse)
    (now : ℚ) : AIDecisionResponse :=
  match aiResult with
  | .error _ => DecisionAPI.createSafeHoldDecision rb requestId now
  | .ok response =>
    { response with
      holdTimeMs := max rb.minHoldTimeMs (min rb.maxHoldTimeMs response.holdTimeMs)
      size := min rb.maxPositionSizeBTC response.size }

/-- A submitted order, reduced to the fields the retry manager reads
(`Order` in `types/core.ts`). -/
structure Order where
  id : String
  side : String
  quantity : ℚ
  price : Option ℚ := none
  status : String
deriving DecidableEq

/-- An order request (`OrderRequest` in `execution/order-manager.ts`). -/
structure OrderRequest where
  side : String
  orderType : String
  quantity : ℚ
  price : Option ℚ := none
  decisionId : Option String := none
deriving DecidableEq

/-- A tracking entry of the retry manager (`PendingRetry` in
`execution/order-retry.ts`). -/
structure PendingRetry where
  originalOrder : Order
  request : OrderRequest
  attempts : ℕ
  lastAttemptAt : ℚ
  status : String
deriving DecidableEq

/-- JavaScript `Map.get` on an association-list model of the map. -/
def mapGet {α : Type} : List (String × α) → String → Option α
  | [], _ => none
  | (k0, v0) :: t, k => if k0 = k then some v0 else mapGet t k

/-- JavaScript `Map.set`: overwrite in place when the key exists, append
otherwise. -/
def mapSet {α : Type} : List (String × α) → String → α → List (String × α)
  | [], k, v => [(k, v)]
  | (k0, v0) :: t, k, v =>
    if k0 = k then (k, v) :: t else (k0, v0) :: mapSet t k v

/-- JavaScript `Map.delete`: remove the entry with the key, if present. -/
def mapDelete {α : Type} : List (String × α) → String → List (String × α)
  | [], _ => []
  | (k0, v0) :: t, k => if k0 = k then t else (k0, v0) :: mapDelete t k

/-- Outcome of one `cancelAndReplace` call: the returned order (or `null`),
the tracking map afterwards, and whether a replacement submission was
performed at all. -/
structure CancelReplaceOutcome where
  result : Option Order
  tracking : List (String × PendingRetry)
  submittedReplacement : Bool
deriving DecidableEq

/-- Embedding of `OrderRetryManager.cancelAndReplace`
(`execution/order-retry.ts`). The two collaborator calls are abstracted as
inputs: `cancelResult` is what `orderManager.cancelOrder` returns and
`submitResult` is the outcome of `orderManager.submitOrder` for the
replacement (consumed only when the cancellation succeeded). -/
def OrderRetryManager.cancelAndReplace
    (tracking : List (String × PendingRetry)) (orderId : String)
    (newPrice : ℚ) (cancelResult : Bool)
    (submitResult : Except String Order) (now : ℚ) : CancelReplaceOutcome :=
  match mapGet tracking orderId with
  | none => { result := none, tracking := tracking, submittedReplacement := false }
  | some pending =>
    if !cancelResult then
      { result := none, tracking := tracking, submittedReplacement := false }
    else
      let newRequest := { pending.request with price := some newPrice }
      match submitResult with
      | .error _ =>
        { result := none, tracking := tracking, submittedReplacement := true }
      | .ok newOrder =>
        { result := some newOrder
          tracking :=
            mapSet (mapDelete tracking orderId) newOrder.id
              { originalOrder := newOrder
                request := newRequest
                attempts := pending.attempts + 1
                lastAttemptAt := now
                status := "PENDING" }
          submittedReplacement := true }

/-- One audit-log record as written by the decision logger per cycle:
the decision (request identity included), the full veto, and whether an
action was taken (`DecisionLogger.log` in `logging/decision-logger.ts`,
invoked from `TradingEngine.runDecisionCycle`). -/
structure AuditEntry where
  requestId : String
  decision : AIDecisionResponse
  veto : RiskVeto
  actionTaken : Bool
deriving DecidableEq

/-- Embedding of the control flow of `TradingEngine.runDecisionCycle`
(`trading-engine.ts`), observed through the audit records it emits: the
kill-switch, book-readiness and news-avoidance gates return early without
logging; a cycle that reaches the decision stage always logs exactly one
record, built from the decision, the veto verdict and the
action-taken flag, regardless of whether the decision is vetoed or a HOLD. -/
def TradingEngine.runDecisionCycle (killSwitchActive bookReady
    shouldAvoidTrading : Bool) (decision : AIDecisionResponse)
    (book : OrderBook) (currentPrice : ℚ) (metrics : RiskMetrics)
    (rb : RulebookConfig) (now : ℚ) : List AuditEntry :=
  if killSwitchActive then []
  else if !bookReady then []
  else if shouldAvoidTrading then []
  else
    let veto := VetoGate.evaluate decision book currentPrice killSwitchActive
      metrics rb now
    [ { requestId := decision.requestId
        decision := decision
        veto := veto
        actionTaken := !veto.vetoed && decision.action != "HOLD" } ]

/-- Total quantity resting in a list of levels; the measure used to state
when the book depth is insufficient for a requested size. -/
def sumQty : List OrderBookLevel → ℚ
  | [] => 0
  | l :: t => l.quantity + sumQty t

/-- A sample decision used to instantiate the universally quantified
theorems on concrete inputs. -/
def exDecision : AIDecisionResponse :=
  { requestId := "d-1"
    action := "HOLD"
    size := 0
    orderType := "MARKET"
    holdTimeMs := 5000
    confidence := 1/2
    rationale := "steady"
    timestamp := 0 }

/-- A sample three-level book. -/
def exBook : OrderBook :=
  { symbol := "BTCUSDT"
    timestamp := 0
    bids := [⟨100, 1⟩, ⟨99, 1⟩, ⟨98, 1⟩]
    asks := [⟨101, 1⟩, ⟨102, 1⟩, ⟨103, 1⟩]
    lastUpdateId := 5 }

/-- Sample metrics: the initial all-zero record. -/
def exMetrics : RiskMetrics := createInitialRiskMetrics 0

/-- A book whose ask side is completely empty. -/
def exBookNoAsks : OrderBook :=
  { symbol := "BTCUSDT"
    timestamp := 0
    bids := [⟨50000, 1⟩]
    asks := []
    lastUpdateId := 1 }

/-- A book with only 0.4 BTC resting at the best (and only) ask. -/
def exBookThinAsks : OrderBook :=
  { symbol := "BTCUSDT"
    timestamp := 0
    bids := [⟨50000, 1⟩]
    asks := [⟨50010, 2/5⟩]
    lastUpdateId := 1 }

/-- A sample order-book manager state with last applied sequence number 5. -/
def exOBState : OBState :=
  { book := exBook
    lastUpdateId := 5
    isInitialized := true
    updateCount := 3 }

/-- A book-ticker message whose stream sequence number 3 is older than the
last applied depth sequence number 5 of `exOBState`. -/
def exTickerStale : BookTickerMsg :=
  { sequ := 3, b := some 105, B := some 2, E := some 7 }

/-- A depth update whose final sequence number equals the last applied one. -/
def exDepthStale : DepthUpdateMsg :=
  { seqU := 4, sequ := 5, b := [(104, 1)], a := [], E := some 9 }

/-- A fresh depth update advancing the sequence number to 6. -/
def exDepthFresh : DepthUpdateMsg :=
  { seqU := 6, sequ := 6, b := [(100, 2), (97, 1)], a := [(101, 0)], E := some 10 }

/-- A sample activated kill-switch state with cooldown expiring at time 100. -/
def exKS : KillSwitchState :=
  { active := true
    activatedAt := some 0
    activatedBy := some "MANUAL"
    reason := some "halt"
    canReactivateAt := some 100 }

/-- Tracker state after three consecutive losing trades recorded from the
freshly constructed tracker. -/
def exTrack3 : TrackerState :=
  RiskMetricsTracker.recordTradeClose
    (RiskMetricsTracker.recordTradeClose
      (RiskMetricsTracker.recordTradeClose
        (RiskMetricsTracker.initialState 0) (-10) 990 1)
      (-10) 980 2)
    (-10) 970 3

/-- Tracker state after one winning trade following the three losses. -/
def exTrack4 : TrackerState :=
  RiskMetricsTracker.recordTradeClose exTrack3 5 975 4

/-- A sample tracked order. -/
def exOrder : Order :=
  { id := "ord-1", side := "BUY", quantity := 1/10, price := some 100
    status := "SUBMITTED" }

/-- The replacement order produced by a successful resubmission. -/
def exOrder2 : Order :=
  { id := "ord-2", side := "BUY", quantity := 1/10, price := some 101
    status := "SUBMITTED" }

/-- The request behind `exOrder`. -/
def exRequest : OrderRequest :=
  { side := "BUY", orderType := "LIMIT", quantity := 1/10, price := some 100
    decisionId := some "d-1" }

/-- The retry-tracking entry for `exOrder`. -/
def exPending : PendingRetry :=
  { originalOrder := exOrder, request := exRequest, attempts := 1
    lastAttemptAt := 0, status := "PENDING" }

/-- A tracking map holding exactly the entry for `exOrder`. -/
def exTracking : List (String × PendingRetry) := [("ord-1", exPending)]

instance (d : Bool) (x y : OrderBookLevel) : Decidable (levelOrd d x y) := by
  unfold levelOrd
  split <;> infer_instance

instance (d : Bool) (ls : List OrderBookLevel) : Decidable (SideInv d ls) := by
  unfold SideInv
  infer_instance

instance (s : OBState) : Decidable (BookInv s) := by
  unfold BookInv
  infer_instance

/-- C5: with the kill switch ACTIVE, a mismatched confirmation token or a
call before the cooldown expiry returns false and leaves the state
unchanged (hence still ACTIVE); with the correct token at or after the
cooldown expiry the call returns true and the state becomes INACTIVE; when
the switch is not active the call returns false and changes nothing; the
embedding is a total function, reflecting that the source method never
throws. -/
theorem killSwitch_deactivate_spec (s : KillSwitchState) (tok : String)
    (now : ℚ) :
    (s.active = false → KillSwitch.deactivate s tok now = (false, s)) ∧
    (s.active = true → tok ≠ "CONFIRM_RESUME_TRADING" →
      KillSwitch.deactivate s tok now = (false, s)) ∧
    (s.active = true → ∀ t, s.canReactivateAt = some t → t ≠ 0 → now < t →
      KillSwitch.deactivate s tok now = (false, s)) ∧
    (s.active = true → tok = "CONFIRM_RESUME_TRADING" →
      (∀ t, s.canReactivateAt = some t → t ≤ now) →
      KillSwitch.deactivate s tok now = (true, { active := false })) := by
  refine ⟨?_, ?_, ?_, ?_⟩
  · intro h
    simp [KillSwitch.deactivate, h]
  · intro h htok
    simp [KillSwitch.deactivate, h, htok]
  · intro h t ht ht0 hlt
    simp [KillSwitch.deactivate, h, ht, ht0, hlt]
  · intro h htok hcool
    subst htok
    cases hc : s.canReactivateAt with
    | none => simp [KillSwitch.deactivate, h, hc]
    | some t =>
      have := hcool t hc
      simp [KillSwitch.deactivate, h, hc, not_lt.mpr this]

/-- Witness for C5 at a concrete activated state: a wrong token at time 50
is refused, and the correct token at time 200 (past the cooldown expiry
100) deactivates the switch. -/
theorem killSwitch_deactivate_spec_witness :
    KillSwitch.deactivate exKS "NOPE" 50 = (false, exKS) ∧
    KillSwitch.deactivate exKS "CONFIRM_RESUME_TRADING" 200 =
      (true, { active := false }) := by
  constructor
  · exact (killSwitch_deactivate_spec exKS "NOPE" 50).2.1 (by decide) (by decide)
  · exact (killSwitch_deactivate_spec exKS "CONFIRM_RESUME_TRADING" 200).2.2.2
      (by decide) rfl (by intro t ht; simp [exKS] at ht; simp [← ht]; norm_num)

/-- C6: recordTradeClose keeps the streak counters mutually exclusive — a
positive-pnl trade increments the win streak and zeroes the loss streak, a
negative-pnl trade increments the loss streak and zeroes the win streak;
and on the concrete scenario, three consecutive losing trades from the
initial tracker state yield a loss streak of 3, after which one winning
trade yields loss streak 0 and win streak 1. -/
theorem recordTradeClose_streaks (s : TrackerState) (pnl eq now : ℚ) :
    (0 < pnl →
      (RiskMetricsTracker.recordTradeClose s pnl eq now).metrics.consecutiveWins
          = s.metrics.consecutiveWins + 1 ∧
      (RiskMetricsTracker.recordTradeClose s pnl eq now).metrics.consecutiveLosses
          = 0) ∧
    (pnl < 0 →
      (RiskMetricsTracker.recordTradeClose s pnl eq now).metrics.consecutiveLosses
          = s.metrics.consecutiveLosses + 1 ∧
      (RiskMetricsTracker.recordTradeClose s pnl eq now).metrics.consecutiveWins
          = 0) ∧
    (exTrack3.metrics.consecutiveLosses = 3 ∧
      exTrack4.metrics.consecutiveLosses = 0 ∧
      exTrack4.metrics.consecutiveWins = 1) := by
  refine ⟨?_, ?_, ?_⟩
  · intro h
    constructor <;> simp [RiskMetricsTracker.recordTradeClose, h]
  · intro h
    constructor <;> simp [RiskMetricsTracker.recordTradeClose, h, asymm h]
  · refine ⟨?_, ?_, ?_⟩ <;>
      norm_num [exTrack4, exTrack3, RiskMetricsTracker.recordTradeClose,
        RiskMetricsTracker.initialState, createInitialRiskMetrics]

/-- Witness for C6 at a concrete input: a winning trade on the post-loss
state increments the win streak from 0 to 1 and zeroes the loss streak. -/
theorem recordTradeClose_streaks_witness :
    ((RiskMetricsTracker.recordTradeClose exTrack3 5 975 4).metrics.consecutiveWins
        = exTrack3.metrics.consecutiveWins + 1 ∧
      (RiskMetricsTracker.recordTradeClose exTrack3 5 975 4).metrics.consecutiveLosses
        = 0) := by
  exact (recordTradeClose_streaks exTrack3 5 975 4).1 (by norm_num)

/-- C7 evidence: the code's default transport timeout is 5000 ms — not the
2000 ms stated by the claim and by the repository's own API document —
while the error path does substitute the safe-HOLD fallback (action HOLD,
size 0, confidence 0, hold time equal to the rulebook minimum) for any
failed, timed-out or malformed decision-service call instead of
propagating the error. -/
theorem decisionAPI_timeout_and_fallback :
    DecisionAPI.DEFAULT_CONFIG.timeoutMs = 5000 ∧
    DecisionAPI.DEFAULT_CONFIG.timeoutMs ≠ 2000 ∧
    (∀ (rb : RulebookConfig) (reqId err : String) (now : ℚ),
      DecisionAPI.requestDecisionResult rb reqId (.error err) now
          = DecisionAPI.createSafeHoldDecision rb reqId now ∧
      (DecisionAPI.requestDecisionResult rb reqId (.error err) now).action = "HOLD" ∧
      (DecisionAPI.requestDecisionResult rb reqId (.error err) now).size = 0 ∧
      (DecisionAPI.requestDecisionResult rb reqId (.error err) now).confidence = 0 ∧
      (DecisionAPI.requestDecisionResult rb reqId (.error err) now).holdTimeMs
          = rb.minHoldTimeMs) := by
  refine ⟨rfl, by norm_num [DecisionAPI.DEFAULT_CONFIG], ?_⟩
  intro rb reqId err now
  refine ⟨rfl, rfl, rfl, rfl, rfl⟩

/-- C9: cancelAndReplace aborts without submitting a replacement and with
the tracking map untouched whenever the cancellation fails; when the
tracked order is found, the cancellation succeeds and the resubmission
succeeds, the tracking map is re-keyed from the old order id to the new
order id (and only then); a failed resubmission also leaves the map
unchanged. -/
theorem cancelAndReplace_atomic (tracking : List (String × PendingRetry))
    (orderId : String) (newPrice : ℚ) (submitResult : Except String Order)
    (now : ℚ) :
    (OrderRetryManager.cancelAndReplace tracking orderId newPrice false
        submitResult now
      = { result := none, tracking := tracking, submittedReplacement := false }) ∧
    (∀ p, mapGet tracking orderId = some p → ∀ e, submitResult = .error e →
      OrderRetryManager.cancelAndReplace tracking orderId newPrice true
          submitResult now
        = { result := none, tracking := tracking, submittedReplacement := true }) ∧
    (∀ p, mapGet tracking orderId = some p → ∀ o, submitResult = .ok o →
      OrderRetryManager.cancelAndReplace tracking orderId newPrice true
          submitResult now
        = { result := some o
            tracking :=
              mapSet (mapDelete tracking orderId) o.id
                { originalOrder := o
                  request := { p.request with price := some newPrice }
                  attempts := p.attempts + 1
                  lastAttemptAt := now
                  status := "PENDING" }
            submittedReplacement := true }) := by
  refine ⟨?_, ?_, ?_⟩
  · cases h : mapGet tracking orderId <;>
      simp [OrderRetryManager.cancelAndReplace, h]
  · intro p hp e he
    subst he
    simp [OrderRetryManager.cancelAndReplace, hp]
  · intro p hp o ho
    subst ho
    simp [OrderRetryManager.cancelAndReplace, hp]

/-- Witness for C9 at a concrete tracking map: a failed cancellation leaves
the map as it was without submitting, and a successful cancel-and-submit
re-keys the entry from ord-1 to ord-2. -/
theorem cancelAndReplace_atomic_witness :
    (OrderRetryManager.cancelAndReplace exTracking "ord-1" 101 false
        (.ok exOrder2) 9
      = { result := none, tracking := exTracking, submittedReplacement := false }) ∧
    (OrderRetryManager.cancelAndReplace exTracking "ord-1" 101 true
        (.ok exOrder2) 9
      = { result := some exOrder2
          tracking :=
            mapSet (mapDelete exTracking "ord-1") exOrder2.id
              { originalOrder := exOrder2
                request := { exPending.request with price := some 101 }
                attempts := exPending.attempts + 1
                lastAttemptAt := 9
                status := "PENDING" }
          submittedReplacement := true }) := by
  constructor
  · exact (cancelAndReplace_atomic exTracking "ord-1" 101 (.ok exOrder2) 9).1
  · exact (cancelAndReplace_atomic exTracking "ord-1" 101 (.ok exOrder2) 9).2.2
      exPending (by simp [mapGet, exTracking]) exOrder2 rfl

/-- The total resting quantity is non-negative when every level quantity
is. -/
theorem sumQty_nonneg (ls : List OrderBookLevel)
    (hq : ∀ l ∈ ls, 0 ≤ l.quantity) : 0 ≤ sumQty ls := by
  induction ls with
  | nil => simp [sumQty]
  | cons l t ih =>
    have h1 := hq l (by simp)
    have h2 := ih (fun x hx => hq x (by simp [hx]))
    simp only [sumQty]
    linarith

/-- When the levels cannot satisfy the requested size, the fill walk
consumes every level and leaves exactly the uncovered remainder. -/
theorem fillWalk_insufficient (ls : List OrderBookLevel) :
    ∀ r c : ℚ, (∀ l ∈ ls, 0 ≤ l.quantity) → sumQty ls < r →
    (VetoGate.fillWalk ls r c).1 = r - sumQty ls := by
  induction ls with
  | nil => intro r c _ _; simp [VetoGate.fillWalk, sumQty]
  | cons l t ih =>
    intro r c hq hlt
    have hql : 0 ≤ l.quantity := hq l (by simp)
    have hqt : ∀ x ∈ t, 0 ≤ x.quantity := fun x hx => hq x (by simp [hx])
    have hst : 0 ≤ sumQty t := sumQty_nonneg t hqt
    have hsum : l.quantity + sumQty t < r := by simpa [sumQty] using hlt
    have hlq : l.quantity < r := by linarith
    have hmin : min r l.quantity = l.quantity := min_eq_right hlq.le
    have hrem : sumQty t < r - l.quantity := by linarith
    have hpos : ¬ r - l.quantity ≤ 0 := by linarith
    simp only [VetoGate.fillWalk, hmin, if_neg hpos]
    rw [ih (r - l.quantity) (c + l.quantity * l.price) hqt hrem]
    simp [sumQty]
    ring

/-- C2 (amended): for a positive proposed size, the slippage estimate on an
empty relevant side is `Infinity` (the source returns `Infinity` before the
walk, not the 1000 bps penalty), while insufficient depth on a non-empty
side yields the fixed 1000 bps penalty. -/
theorem estimateSlippage_insufficient_depth (sizeBTC : ℚ) (book : OrderBook)
    (action : String) (hpos : 0 < sizeBTC) :
    (VetoGate.slipLevels book action = [] →
      VetoGate.estimateSlippage sizeBTC book action = XQ.inf) ∧
    (VetoGate.slipLevels book action ≠ [] →
      (∀ l ∈ VetoGate.slipLevels book action, 0 ≤ l.quantity) →
      sumQty (VetoGate.slipLevels book action) < sizeBTC →
      VetoGate.estimateSlippage sizeBTC book action = XQ.fin 1000) := by
  have hns : ¬ sizeBTC ≤ 0 := not_le.mpr hpos
  constructor
  · intro hnil
    simp [VetoGate.estimateSlippage, hns, hnil]
  · intro hne hq hlt
    cases hL : VetoGate.slipLevels book action with
    | nil => exact absurd hL hne
    | cons l0 rest =>
      rw [hL] at hq hlt
      have hwalk := fillWalk_insufficient (l0 :: rest) sizeBTC 0 hq hlt
      have hrs : 0 < (VetoGate.fillWalk (l0 :: rest) sizeBTC 0).1 := by
        rw [hwalk]; linarith
      simp [VetoGate.estimateSlippage, hns, hL, hrs]

/-- C2 counterexample: with a proposed size of 1 BTC and zero ask depth at
all, the slippage estimate is `Infinity`, not the 1000 bps penalty claimed
for that case, and so it is an infinite rather than a comparable finite
value. -/
theorem estimateSlippage_empty_side_is_infinite :
    VetoGate.estimateSlippage 1 exBookNoAsks "BUY" = XQ.inf ∧
    XQ.inf ≠ XQ.fin 1000 := by
  constructor
  · simp [VetoGate.estimateSlippage, VetoGate.slipLevels, exBookNoAsks]
  · simp

/-- Witness for C2 (amended) at the spec scenario book: size 1 BTC against
a single 0.4 BTC ask level is insufficient depth on a non-empty side, so
the estimate is the 1000 bps penalty. -/
theorem estimateSlippage_insufficient_depth_witness :
    VetoGate.estimateSlippage 1 exBookThinAsks "BUY" = XQ.fin 1000 := by
  refine (estimateSlippage_insufficient_depth 1 exBookThinAsks "BUY"
    (by norm_num)).2 ?_ ?_ ?_
  · simp [VetoGate.slipLevels, exBookThinAsks]
  · intro l hl
    simp [VetoGate.slipLevels, exBookThinAsks] at hl
    rw [hl]
    norm_num
  · norm_num [VetoGate.slipLevels, exBookThinAsks, sumQty]

/-- C3 (amended): depth updates are replay-protected — any incoming depth
update whose final sequence number is at most the last applied one leaves
the entire order-book manager state (bids, asks, lastUpdateId, timestamp,
initialization flag, counters) unchanged. Book-ticker updates carry no such
guard (see the counterexample). -/
theorem handleDepthUpdate_replay_noop (s : OBState) (m : DepthUpdateMsg)
    (now : ℚ) (h : m.sequ ≤ s.lastUpdateId) :
    OrderBookManager.handleDepthUpdate s m now = s := by
  simp [OrderBookManager.handleDepthUpdate, h]

/-- Witness for C3 (amended): a depth update with sequence number equal to
the last applied one (5) is a complete no-op on the sample state. -/
theorem handleDepthUpdate_replay_noop_witness :
    OrderBookManager.handleDepthUpdate exOBState exDepthStale 1000 = exOBState := by
  exact handleDepthUpdate_replay_noop exOBState exDepthStale 1000 (by
    norm_num [exOBState, exDepthStale])

/-- C3 counterexample: a book-ticker update whose stream sequence number 3
is below the last applied sequence number 5 is nevertheless applied — it
changes the bid side (and the timestamp) of the book, so replay protection
does not cover every incoming order-book update. -/
theorem handleBookTicker_ignores_sequence :
    exTickerStale.sequ ≤ exOBState.lastUpdateId ∧
    (OrderBookManager.handleBookTicker exOBState exTickerStale 1000).book.bids
      ≠ exOBState.book.bids := by
  constructor
  · norm_num [exTickerStale, exOBState]
  · decide

/-- Every element of the insertion result is either the inserted level or
one of the original levels. -/
theorem mem_insertLevel (isDesc : Bool) (p q : ℚ) :
    ∀ (ls : List OrderBookLevel) (x : OrderBookLevel),
    x ∈ OrderBookManager.insertLevel isDesc p q ls →
    x = { price := p, quantity := q } ∨ x ∈ ls := by
  intro ls
  induction ls with
  | nil =>
    intro x hx
    simp [OrderBookManager.insertLevel] at hx
    exact Or.inl hx
  | cons l t ih =>
    intro x hx
    simp only [OrderBookManager.insertLevel] at hx
    by_cases hcond : (if isDesc then l.price ≤ p else p ≤ l.price)
    · rw [if_pos hcond] at hx
      by_cases heq : l.price = p
      · rw [if_pos heq] at hx
        rcases List.mem_cons.mp hx with h | h
        · exact Or.inl h
        · exact Or.inr (List.mem_cons_of_mem l h)
      · rw [if_neg heq] at hx
        rcases List.mem_cons.mp hx with h | h
        · exact Or.inl h
        · exact Or.inr h
    · rw [if_neg hcond] at hx
      rcases List.mem_cons.mp hx with h | h
      · exact Or.inr (h ▸ List.mem_cons_self l t)
      · rcases ih x h with h2 | h2
        · exact Or.inl h2
        · exact Or.inr (List.mem_cons_of_mem l h2)

/-- The strict side order unfolds to a price comparison. -/
theorem levelOrd_iff (d : Bool) (x y : OrderBookLevel) :
    levelOrd d x y ↔ (if d = true then y.price < x.price else x.price < y.price) :=
  Iff.rfl

/-- Inserting a level into a strictly ordered side keeps it strictly
ordered. -/
theorem pairwise_insertLevel (isDesc : Bool) (p q : ℚ) :
    ∀ (ls : List OrderBookLevel),
    List.Pairwise (levelOrd isDesc) ls →
    List.Pairwise (levelOrd isDesc) (OrderBookManager.insertLevel isDesc p q ls) := by
  intro ls
  induction ls with
  | nil =>
    intro _
    simp [OrderBookManager.insertLevel]
  | cons l t ih =>
    intro h
    rcases List.pairwise_cons.mp h with ⟨hl, ht⟩
    simp only [OrderBookManager.insertLevel]
    by_cases hcond : (if isDesc = true then l.price ≤ p else p ≤ l.price)
    · rw [if_pos hcond]
      by_cases heq : l.price = p
      · rw [if_pos heq]
        refine List.pairwise_cons.mpr ⟨?_, ht⟩
        intro b hb
        have hlb := (levelOrd_iff isDesc l b).mp (hl b hb)
        refine (levelOrd_iff isDesc _ b).mpr ?_
        by_cases hd : isDesc = true <;>
          simp only [hd, if_pos, if_neg, if_true, if_false] at hlb ⊢ <;>
          simp_all
      · rw [if_neg heq]
        refine List.pairwise_cons.mpr ⟨?_, h⟩
        intro b hb
        refine (levelOrd_iff isDesc _ b).mpr ?_
        rcases List.mem_cons.mp hb with hbl | hbt
        · subst hbl
          by_cases hd : isDesc = true <;>
            simp only [hd, if_true, if_false] at hcond ⊢ <;> simp_all
          · exact lt_of_le_of_ne hcond heq
          · exact lt_of_le_of_ne hcond (fun hh => heq hh.symm)
        · have hlb := (levelOrd_iff isDesc l b).mp (hl b hbt)
          by_cases hd : isDesc = true <;>
            simp only [hd, if_true, if_false] at hcond hlb ⊢ <;> simp_all <;>
            linarith
    · rw [if_neg hcond]
      refine List.pairwise_cons.mpr ⟨?_, ih ht⟩
      intro b hb
      rcases mem_insertLevel isDesc p q t b hb with hbnew | hbt
      · subst hbnew
        refine (levelOrd_iff isDesc l _).mpr ?_
        by_cases hd : isDesc = true <;>
          simp only [hd, if_true, if_false] at hcond ⊢ <;> simp_all
      · exact hl b hbt

/-- Erasing the level at a price from a strictly ordered (hence
price-unique) side removes every level at that price. -/
theorem eraseP_price_ne (isDesc : Bool) (p : ℚ) :
    ∀ (ls : List OrderBookLevel),
    List.Pairwise (levelOrd isDesc) ls →
    ∀ x ∈ ls.eraseP (fun l => l.price == p), x.price ≠ p := by
  intro ls
  induction ls with
  | nil => intro _ x hx; simp [List.eraseP] at hx
  | cons l t ih =>
    intro h x hx
    rcases List.pairwise_cons.mp h with ⟨hl, ht⟩
    by_cases hlp : l.price = p
    · rw [List.eraseP_cons_of_pos (by simp [hlp])] at hx
      have := hl x hx
      unfold levelOrd at this
      cases isDesc <;> simp_all <;> intro hc <;> simp_all
    · rw [List.eraseP_cons_of_neg (by simp [hlp])] at hx
      rcases List.mem_cons.mp hx with hxl | hxe
      · subst hxl; exact hlp
      · exact ih ht x hxe

/-- A single `updateLevel` call preserves the side invariant (strict price
order and the 20-level bound). -/
theorem sideInv_updateLevel (isDesc : Bool) (ls : List OrderBookLevel)
    (p q : ℚ) (h : SideInv isDesc ls) :
    SideInv isDesc (OrderBookManager.updateLevel isDesc ls p q) := by
  rcases h with ⟨hpair, hlen⟩
  unfold OrderBookManager.updateLevel
  by_cases hq : q = 0
  · rw [if_pos hq]
    refine ⟨List.Pairwise.sublist (List.eraseP_sublist ls) hpair, ?_⟩
    exact le_trans (List.Sublist.length_le (List.eraseP_sublist ls)) hlen
  · rw [if_neg hq]
    refine ⟨?_, ?_⟩
    · exact List.Pairwise.sublist (List.take_sublist 20 _)
        (pairwise_insertLevel isDesc p q ls hpair)
    · exact List.length_take_le 20 _

/-- Folding any sequence of per-level deltas through `updateLevel`
preserves the side invariant. -/
theorem sideInv_applyDeltas (isDesc : Bool) :
    ∀ (deltas : List (ℚ × ℚ)) (ls : List OrderBookLevel),
    SideInv isDesc ls →
    SideInv isDesc (OrderBookManager.applyDeltas isDesc ls deltas) := by
  intro deltas
  induction deltas with
  | nil => intro ls h; simpa [OrderBookManager.applyDeltas] using h
  | cons d t ih =>
    intro ls h
    have h1 := sideInv_updateLevel isDesc ls d.1 d.2 h
    simpa [OrderBookManager.applyDeltas] using
      ih (OrderBookManager.updateLevel isDesc ls d.1 d.2) h1

/-- One depth update preserves the order-book invariant. -/
theorem bookInv_handleDepthUpdate (s : OBState) (m : DepthUpdateMsg)
    (now : ℚ) (h : BookInv s) :
    BookInv (OrderBookManager.handleDepthUpdate s m now) := by
  rcases h with ⟨hb, ha⟩
  unfold OrderBookManager.handleDepthUpdate
  by_cases hseq : m.sequ ≤ s.lastUpdateId
  · rw [if_pos hseq]; exact ⟨hb, ha⟩
  · rw [if_neg hseq]
    exact ⟨sideInv_applyDeltas true m.b s.book.bids hb,
      sideInv_applyDeltas false m.a s.book.asks ha⟩

/-- C4: along any stream of depth updates, each side of the book stays
strictly price-sorted (bids descending, asks ascending — which also rules
out duplicate prices) and holds at most 20 levels; and on a strictly
ordered side, an update with quantity 0 removes the level at that price
(no level at that price survives). -/
theorem orderBook_invariants (s : OBState) (msgs : List (DepthUpdateMsg × ℚ))
    (isDesc : Bool) (ls : List OrderBookLevel) (p : ℚ) (x : OrderBookLevel) :
    (BookInv s → BookInv (OrderBookManager.applyUpdates s msgs)) ∧
    (List.Pairwise (levelOrd isDesc) ls →
      x ∈ OrderBookManager.updateLevel isDesc ls p 0 → x.price ≠ p) := by
  constructor
  · intro h
    unfold OrderBookManager.applyUpdates
    induction msgs generalizing s with
    | nil => simpa using h
    | cons mn t ih =>
      simpa using ih (OrderBookManager.handleDepthUpdate s mn.1 mn.2)
        (bookInv_handleDepthUpdate s mn.1 mn.2 h)
  · intro hpair hx
    have hx0 : x ∈ ls.eraseP (fun l => l.price == p) := by
      simpa [OrderBookManager.updateLevel] using hx
    exact eraseP_price_ne isDesc p ls hpair x hx0

/-- Witness for C4 on concrete data: the sample state satisfies the
invariant after a fresh depth update (which also removes the 101 ask via a
quantity-0 delta), and erasing price 100 from a two-level bid side leaves
the remaining level, whose price differs from 100. -/
theorem orderBook_invariants_witness :
    BookInv (OrderBookManager.applyUpdates exOBState [(exDepthFresh, 10)]) ∧
    ({ price := 99, quantity := 1 } : OrderBookLevel).price ≠ 100 := by
  constructor
  · exact (orderBook_invariants exOBState [(exDepthFresh, 10)] true
      [⟨100, 1⟩, ⟨99, 1⟩] 100 ⟨99, 1⟩).1 (by decide)
  · exact (orderBook_invariants exOBState [(exDepthFresh, 10)] true
      [⟨100, 1⟩, ⟨99, 1⟩] 100 ⟨99, 1⟩).2 (by decide) (by decide)

/-- The failed-check name list extracted from a check list is non-empty
exactly when some check in the list failed. -/
theorem failedNames_pos_iff (l : List RiskCheckResult) :
    0 < (l.filter (fun c => !c.passed)).length ↔
    ∃ c ∈ l, c.passed = false := by
  constructor
  · intro h
    obtain ⟨c, hc⟩ := List.exists_mem_of_length_pos h
    rcases List.mem_filter.mp hc with ⟨hcl, hcp⟩
    exact ⟨c, hcl, by simpa using hcp⟩
  · rintro ⟨c, hcl, hcp⟩
    exact List.length_pos_of_mem (List.mem_filter.mpr ⟨hcl, by simp [hcp]⟩)

/-- C1: the veto verdict is exactly the emptiness test of the collected
failed-check names — `vetoed` is true precisely when at least one contained
check failed, and it is never set independently of the checks. -/
theorem vetoGate_vetoed_iff_failed (decision : AIDecisionResponse)
    (book : OrderBook) (currentPrice : ℚ) (killSwitchActive : Bool)
    (metrics : RiskMetrics) (rb : RulebookConfig) (now : ℚ) :
    (VetoGate.evaluate decision book currentPrice killSwitchActive metrics
        rb now).vetoed
      = decide (0 < (VetoGate.evaluate decision book currentPrice
          killSwitchActive metrics rb now).failedChecks.length) ∧
    ((VetoGate.evaluate decision book currentPrice killSwitchActive metrics
        rb now).vetoed = true ↔
      ∃ c ∈ (VetoGate.evaluate decision book currentPrice killSwitchActive
          metrics rb now).checks, c.passed = false) := by
  constructor
  · rfl
  · cases killSwitchActive <;>
      cases hct : (ForbiddenConditionsChecker.check rb book currentPrice
        now).canTrade <;>
      simp [VetoGate.evaluate, hct, List.mem_append, List.length_append,
        failedNames_pos_iff, add_pos_iff, or_and_right, exists_or]

/-- C8 counterexample: a cycle skipped by the kill-switch gate emits no
audit record at all, so it is not the case that every cycle — skip
included — emits exactly one record. -/
theorem runDecisionCycle_skip_no_record :
    (TradingEngine.runDecisionCycle true true false exDecision exBook 100
      exMetrics DEFAULT_RULEBOOK 0).length ≠ 1 := by
  simp [TradingEngine.runDecisionCycle]

/-- C8 (amended): a cycle stopped by the kill-switch, book-readiness or
news-avoidance gate emits no audit record; every cycle that passes all
three gates emits exactly one record, containing the decision (request
identity), the full veto verdict and the action-taken flag, regardless of
whether the decision was vetoed or a HOLD. -/
theorem runDecisionCycle_audit (ks br na : Bool)
    (decision : AIDecisionResponse) (book : OrderBook) (currentPrice : ℚ)
    (metrics : RiskMetrics) (rb : RulebookConfig) (now : ℚ) :
    ((ks = true ∨ br = false ∨ na = true) →
      TradingEngine.runDecisionCycle ks br na decision book currentPrice
        metrics rb now = []) ∧
    (ks = false → br = true → na = false →
      TradingEngine.runDecisionCycle ks br na decision book currentPrice
          metrics rb now =
        [ { requestId := decision.requestId
            decision := decision
            veto := VetoGate.evaluate decision book currentPrice ks metrics
              rb now
            actionTaken :=
              !(VetoGate.evaluate decision book currentPrice ks metrics
                  rb now).vetoed
                && decision.action != "HOLD" } ]) := by
  constructor
  · intro h
    cases ks <;> cases br <;> cases na <;>
      simp [TradingEngine.runDecisionCycle] at h ⊢
  · intro h1 h2 h3
    subst h1; subst h2; subst h3
    simp [TradingEngine.runDecisionCycle]

/-- Witness for C8 (amended) at concrete inputs: the kill-switch-skipped
cycle emits nothing, and the gates-open cycle emits the single expected
record. -/
theorem runDecisionCycle_audit_witness :
    TradingEngine.runDecisionCycle true true false exDecision exBook 100
        exMetrics DEFAULT_RULEBOOK 0 = [] ∧
    TradingEngine.runDecisionCycle false true false exDecision exBook 100
        exMetrics DEFAULT_RULEBOOK 0 =
      [ { requestId := exDecision.requestId
          decision := exDecision
          veto := VetoGate.evaluate exDecision exBook 100 false exMetrics
            DEFAULT_RULEBOOK 0
          actionTaken :=
            !(VetoGate.evaluate exDecision exBook 100 false exMetrics
                DEFAULT_RULEBOOK 0).vetoed
              && exDecision.action != "HOLD" } ] := by
  constructor
  · exact (runDecisionCycle_audit true true false exDecision exBook 100
      exMetrics DEFAULT_RULEBOOK 0).1 (Or.inl rfl)
  · exact (runDecisionCycle_audit false true false exDecision exBook 100
      exMetrics DEFAULT_RULEBOOK 0).2 rfl rfl rfl

/-- C10: under the default rulebook (whose frozen `killSwitchEnabled` flag
is false), the rulebook's kill-switch check passes at every call time; in
the full battery the check named KILL_SWITCH always passes, whatever the
context; and gating on the live kill switch happens through the separate
`isActive` gate of the Veto Gate, which records a failed KILL_SWITCH entry
whenever the live switch is active. -/
theorem checkKillSwitch_frozen_config (decision : AIDecisionResponse)
    (book : OrderBook) (currentPrice : ℚ) (metrics : RiskMetrics) (now : ℚ) :
    ((RulebookEngine.checkKillSwitch DEFAULT_RULEBOOK now).passed = true) ∧
    (∀ ctx : ValidationContext,
      ∀ c ∈ RulebookEngine.validateDecision DEFAULT_RULEBOOK decision ctx now,
      c.checkName = "KILL_SWITCH" → c.passed = true) ∧
    ("KILL_SWITCH" ∈ (VetoGate.evaluate decision book currentPrice true
      metrics DEFAULT_RULEBOOK now).failedChecks) := by
  refine ⟨rfl, ?_, ?_⟩
  · intro ctx c hc hname
    simp only [RulebookEngine.validateDecision, List.mem_cons,
      List.not_mem_nil, or_false] at hc
    rcases hc with rfl | rfl | rfl | rfl | rfl | rfl | rfl | rfl | rfl | rfl
      | rfl | rfl <;>
      simp_all [RulebookEngine.checkPositionSize, RulebookEngine.checkExposure,
        RulebookEngine.checkDailyLoss, RulebookEngine.checkDrawdown,
        RulebookEngine.checkSpread, RulebookEngine.checkSlippage,
        RulebookEngine.checkLiquidity, RulebookEngine.checkHoldTime,
        RulebookEngine.checkOrderRate, RulebookEngine.checkConsecutiveLosses,
        RulebookEngine.checkLeverage, RulebookEngine.checkKillSwitch,
        DEFAULT_RULEBOOK]
  · simp [VetoGate.evaluate]

/-- Witness for C10 at concrete inputs: the battery membership hypothesis
is discharged with the kill-switch check itself, and the live-gate
membership is instantiated on the sample decision and book. -/
theorem checkKillSwitch_frozen_config_witness :
    (RulebookEngine.checkKillSwitch DEFAULT_RULEBOOK 0).passed = true ∧
    "KILL_SWITCH" ∈ (VetoGate.evaluate exDecision exBook 100 true exMetrics
      DEFAULT_RULEBOOK 0).failedChecks := by
  constructor
  · exact (checkKillSwitch_frozen_config exDecision exBook 100 exMetrics
      0).2.1
      { currentExposurePercent := 0, dailyLossPercent := 0
        drawdownPercent := 0, spreadBps := .fin 1
        expectedSlippageBps := .fin 1, liquidityBTC := 20
        ordersLastMinute := 0, ordersLastHour := 0
        consecutiveLosses := 0, currentLeverage := 1 }
      (RulebookEngine.checkKillSwitch DEFAULT_RULEBOOK 0)
      (by simp [RulebookEngine.validateDecision]) rfl
  · exact (checkKillSwitch_frozen_config exDecision exBook 100 exMetrics
      0).2.2
